import Mathlib

/-!
Shallow embedding of the property-registration chaincode
(src/chaincode/usercontract.js, src/chaincode/lib/models/property.js,
src/chaincode/lib/lists/propertylist.js, src/unnamed/part_000 =
RegistrarContract, src/unnamed/part_001 = User model).

A JS object is modelled as a list of (field name, value) pairs in
insertion order; property write (`obj.k = v`) replaces the value of an
existing field in place or appends a new field at the end, exactly as in
JS.  The ledger is two association maps (one per composite-key namespace:
the user namespace and the property namespace used by the contracts).
Each contract method becomes a pure function from arguments and ledger to
`Except String Ledger`: a thrown `Error` is `.error msg`, a completed
invocation returns the ledger after all of its `putState` writes (the
source awaits each write unconditionally once the checks have passed, so
an invocation performs either none or all of its writes).
-/

namespace PropReg

/-- JSON scalar values appearing in the records of this chaincode. -/
inductive Jval where
  | str (s : String)
  | num (n : Int)
  deriving DecidableEq

/-- A JS/JSON object: fields in insertion order. -/
abbrev Jobj := List (String × Jval)

/-- First-match association lookup: `m[k]`, `undefined` as `none`. -/
def alGet {α : Type} : List (String × α) → String → Option α
  | [], _ => none
  | (k, v) :: t, q => if k = q then some v else alGet t q

/-- JS property write / ledger `putState`: replace the binding of `q` in
place if present, otherwise append it. -/
def alPut {α : Type} : List (String × α) → String → α → List (String × α)
  | [], q, v => [(q, v)]
  | (k, w) :: t, q, v => if k = q then (q, v) :: t else (k, w) :: alPut t q v

/-- `Object.assign(base, source)`: assign each field of `source` onto
`base`, left to right (models/user.js line 11, models/property.js line 11). -/
def objAssign (base : Jobj) (source : Jobj) : Jobj :=
  source.foldl (fun b kv => alPut b kv.1 kv.2) base

/-- How `Array.prototype.join` renders one key part: strings unchanged,
numbers via `toString`, a missing value as the empty string. -/
def keyPartStr : Option Jval → String
  | some (Jval.str s) => s
  | some (Jval.num n) => toString n
  | none => ""

/-- `makeKey(keyParts) = keyParts.join(":")` (models, lines 44-46). -/
def makeKey (keyParts : List String) : String := String.intercalate ":" keyParts

/-- The model constructor shared by User and Property (models, lines 9-12):
`this.key = makeKey(...)` inserts `key` as the first field of the fresh
object, then `Object.assign(this, obj)` copies every field of the input
object over it. -/
def construct (keyOf : Jobj → String) (o : Jobj) : Jobj :=
  objAssign [("key", Jval.str (keyOf o))] o

/-- A buffer fetched from the ledger: absent key (Fabric returns an empty
buffer), present but not valid JSON, or a valid JSON object. -/
inductive RawBuf where
  | absent
  | corrupt
  | val (o : Jobj)
  deriving DecidableEq

/-- `User.makeKey([o.name, o.aadhar])` used by the User constructor. -/
def User.keyOf (o : Jobj) : String :=
  makeKey [keyPartStr (alGet o "name"), keyPartStr (alGet o "aadhar")]

/-- `User.createInstance` (src/unnamed/part_001 lines 61-63). -/
def User.createInstance (o : Jobj) : Jobj := construct User.keyOf o

/-- `User.fromBuffer` (src/unnamed/part_001 lines 26-29): `JSON.parse` of
an empty (absent) or corrupt buffer throws; every caller catches this and
continues with `undefined`, modelled as `none`. -/
def User.fromBuffer : RawBuf → Option Jobj
  | RawBuf.absent => none
  | RawBuf.corrupt => none
  | RawBuf.val o => some (User.createInstance o)

/-- `User.toBuffer` (src/unnamed/part_001 lines 35-37): serialize the
object, field order preserved. -/
def User.toBuffer (o : Jobj) : RawBuf := RawBuf.val o

/-- `Property.makeKey([o.propertyId])` used by the Property constructor. -/
def Property.keyOf (o : Jobj) : String :=
  makeKey [keyPartStr (alGet o "propertyId")]

/-- `Property.createInstance` (models/property.js lines 61-63). -/
def Property.createInstance (o : Jobj) : Jobj := construct Property.keyOf o

/-- `Property.fromBuffer` (models/property.js lines 26-29). -/
def Property.fromBuffer : RawBuf → Option Jobj
  | RawBuf.absent => none
  | RawBuf.corrupt => none
  | RawBuf.val o => some (Property.createInstance o)

/-- `Property.toBuffer` (models/property.js lines 35-37). -/
def Property.toBuffer (o : Jobj) : RawBuf := RawBuf.val o

/-! ## Ledger state and record types used by the contract methods -/

/-- The `upgradCoins` field of a stored user record: absent (a pending
registration request has no such field), an ordinary number, the JS
`NaN` produced by arithmetic on an absent field, or a string produced by
`+=` with a non-numeric value (JS `+` falls back to string
concatenation when an operand is a function or object). -/
inductive Coins where
  | absent
  | num (n : Int)
  | nan
  | str
  deriving DecidableEq

/-- JS `x + n` on an `upgradCoins` value: `undefined + n` and `NaN + n`
are both `NaN`; a string balance concatenates to another string. -/
def jsAdd : Coins → Int → Coins
  | Coins.num b, n => Coins.num (b + n)
  | Coins.str, _ => Coins.str
  | _, _ => Coins.nan

/-- JS `x - n` on an `upgradCoins` value: `-` coerces its operands to
numbers, so `undefined`, `NaN` and a non-numeric string all give `NaN`. -/
def jsSub : Coins → Int → Coins
  | Coins.num b, n => Coins.num (b - n)
  | _, _ => Coins.nan

/-- JS `x >= n` on an `upgradCoins` value: comparisons with `undefined`,
`NaN` or a non-numeric string are false. -/
def jsGe : Coins → Int → Bool
  | Coins.num b, n => decide (b ≥ n)
  | _, _ => false

/-- A stored user record.  `createdAt` (a `Date` only ever stored, never
read) and the redundant `key` field added by `User.createInstance` (always
equal to `name:aadhar` for records of this contract) are omitted. -/
structure UserRec where
  name : String
  email : String
  phone : String
  aadhar : String
  upgradCoins : Coins
  deriving DecidableEq

/-- A stored property record; `status = none` models the pending request,
which has no status field. -/
structure PropRec where
  propertyId : String
  owner : String
  price : Int
  status : Option String
  deriving DecidableEq

/-- The ledger, split by composite-key namespace:
`org.property-registration-network.regnet.user.` and
`org.property-registration-network.regnet.property.` (disjoint key
spaces, so two maps). -/
structure Ledger where
  users : List (String × UserRec)
  props : List (String × PropRec)
  deriving DecidableEq

/-- Result of one invocation: a thrown `Error msg` or the new ledger. -/
abbrev Res := Except String Ledger

/-- `user.getKey()`: the `key` field set by the User constructor.  For
every record this contract ever stores, that field equals
`makeKey [name, aadhar]` over the record's own fields: requests are
stored without a `key` field (so decoding derives it from the stored
name/aadhar), and records stored through `addUser`/`updateUser` carry a
`key` field that was itself derived from the same stored fields. -/
def UserRec.getKey (u : UserRec) : String := makeKey [u.name, u.aadhar]

/-- `property.getKey()`: likewise always derived from the record's own
`propertyId` field; `makeKey [x] = [x].join(":") = x`, so the key is the
`propertyId` itself. -/
def PropRec.getKey (p : PropRec) : String := p.propertyId

/-- `PropertyList.getProperty` (propertylist.js lines 17-21): fetch by
composite key and decode; the callers' `.catch` turns a fetch/decode
failure (absent key included) into `undefined`, modelled as `none`. -/
def PropertyList.getProperty (st : Ledger) (propertyKey : String) : Option PropRec :=
  alGet st.props propertyKey

/-- `PropertyList.addProperty` (propertylist.js lines 28-32): serialize
and `putState` under the record's own key. -/
def PropertyList.addProperty (st : Ledger) (propertyObject : PropRec) : Ledger :=
  { st with props := alPut st.props propertyObject.getKey propertyObject }

/-- `PropertyList.updateProperty` (propertylist.js lines 39-43):
identical to `addProperty`. -/
def PropertyList.updateProperty (st : Ledger) (propertyObject : PropRec) : Ledger :=
  { st with props := alPut st.props propertyObject.getKey propertyObject }

/-- Modelled from the spec: `lib/lists/userlist.js` is not among the
source files, only its callers are.  Spec section 4.2 specifies the user
store as a namespaced key-value access layer symmetric to PropertyList:
`getUser(key)` returns the decoded entity or not-found (the callers'
`.catch` turns failure into `undefined`, modelled as `none`). -/
def UserList.getUser (st : Ledger) (userKey : String) : Option UserRec :=
  alGet st.users userKey

/-- Modelled from the spec: `addUser` of the missing
`lib/lists/userlist.js`, symmetric to `PropertyList.addProperty`:
serialize and `putState` under the record's own key. -/
def UserList.addUser (st : Ledger) (userObject : UserRec) : Ledger :=
  { st with users := alPut st.users userObject.getKey userObject }

/-- Modelled from the spec: `updateUser` of the missing
`lib/lists/userlist.js`, identical to `addUser` at this layer (spec
section 4.2: update is semantically identical to put). -/
def UserList.updateUser (st : Ledger) (userObject : UserRec) : Ledger :=
  { st with users := alPut st.users userObject.getKey userObject }

/-- A value read off the `VALID_TRANSACTIONS` object literal by
`VALID_TRANSACTIONS[transactionID]`: one of its own number entries, or a
member inherited from `Object.prototype` (a function, or the
`Object.prototype` object itself for `__proto__` — non-numeric but
truthy). -/
inductive TxVal where
  | num (n : Int)
  | member
  deriving DecidableEq

/-- The own property names of `Object.prototype`, inherited by every
plain object literal and therefore visible to the bracket lookup on
`VALID_TRANSACTIONS`. -/
def OBJECT_PROTOTYPE_MEMBERS : List String :=
  ["constructor", "hasOwnProperty", "isPrototypeOf", "propertyIsEnumerable",
   "toLocaleString", "toString", "valueOf", "__proto__",
   "__defineGetter__", "__defineSetter__", "__lookupGetter__", "__lookupSetter__"]

/-- The JS property read `VALID_TRANSACTIONS[transactionID]` on the
static table of usercontract.js lines 10-14: an own entry yields its
number, a name inherited from `Object.prototype` yields that (truthy,
non-numeric) member, anything else yields `undefined` (`none`).  All own
entries are non-zero, so the source's truthiness test
`if (VALID_TRANSACTIONS[transactionID])` holds exactly on `some`. -/
def VALID_TRANSACTIONS : String → Option TxVal := fun t =>
  if t = "upg100" then some (TxVal.num 100)
  else if t = "upg500" then some (TxVal.num 500)
  else if t = "upg1000" then some (TxVal.num 1000)
  else if t ∈ OBJECT_PROTOTYPE_MEMBERS then some TxVal.member
  else none

/-- JS `x += v` where `v` is the looked-up transaction value: adding a
number behaves as `jsAdd`; adding an inherited function/object coerces
both operands to strings and concatenates, so the result is a string
whatever `x` was. -/
def jsAddV : Coins → TxVal → Coins
  | c, TxVal.num n => jsAdd c n
  | _, TxVal.member => Coins.str

/-! ## UserContract methods (src/chaincode/usercontract.js).
`msp` is the calling identity's MSP id (`ctx.clientIdentity.getMSPID()`);
methods whose source never reads the client identity take it and ignore
it. -/

/-- `UserContract.requestNewUser` (usercontract.js lines 60-98). -/
def requestNewUser (msp name email phone aadhar : String) (st : Ledger) : Res :=
  if msp ≠ "usersMSP" then
    Except.error "Only users should be allowed to raise a new user request"
  else
    let userKey := makeKey [name, aadhar]
    match alGet st.users userKey with
    | some existingUser =>
      if jsGe existingUser.upgradCoins 0 then
        Except.error ("User with name " ++ name ++ " and aadhar " ++ aadhar ++ " already exists")
      else
        Except.error ("User Registration Request for name " ++ name ++ " and aadhar " ++ aadhar ++ "is already exists")
    | none =>
      let userObj : UserRec :=
        { name := name, email := email, phone := phone, aadhar := aadhar
          upgradCoins := Coins.absent }
      Except.ok { st with users := alPut st.users userKey userObj }

/-- `UserContract.rechargeAccount` (usercontract.js lines 108-132). -/
def rechargeAccount (msp name aadhar transactionID : String) (st : Ledger) : Res :=
  if msp ≠ "usersMSP" then
    Except.error "Only users should be allowed to recharge accounts"
  else
    match VALID_TRANSACTIONS transactionID with
    | none => Except.error "Invalid Bank Transaction ID"
    | some upgradCoins =>
      let userKey := makeKey [name, aadhar]
      match UserList.getUser st userKey with
      | none =>
        Except.error ("There is no user with name " ++ name ++ " and aadhar " ++ aadhar ++ " exists")
      | some user =>
        let user2 := { user with upgradCoins := jsAddV user.upgradCoins upgradCoins }
        Except.ok (UserList.updateUser st user2)

/-- `UserContract.propertyRegistrationRequest` (usercontract.js lines
177-224).  Note: the only check on the requesting user is that a record
exists at `name:aadhar`; approval (presence of `upgradCoins`) is not
checked. -/
def propertyRegistrationRequest (msp name aadhar propertyId : String) (price : Int)
    (st : Ledger) : Res :=
  if msp ≠ "usersMSP" then
    Except.error "Only users should be used to raise property registration request"
  else
    let userKey := makeKey [name, aadhar]
    match alGet st.props propertyId with
    | some property =>
      if property.status = some "registered" then
        Except.error ("Property with propertyId " ++ propertyId ++ "is already exists")
      else
        Except.error ("Property Registration request for propertyId " ++ propertyId ++ "is already exists")
    | none =>
      match UserList.getUser st userKey with
      | none =>
        Except.error ("There is no approved user with name " ++ name ++ " and aadhar " ++ aadhar ++ " exists")
      | some _user =>
        let propertyObj : PropRec :=
          { propertyId := propertyId, owner := userKey, price := price, status := none }
        Except.ok { st with props := alPut st.props propertyId propertyObj }

/-- `UserContract.updateProperty` (usercontract.js lines 256-279).  The
source never reads `ctx.clientIdentity`: there is no MSP/role check, only
the owner-key comparison after the property has been read. -/
def updateProperty (msp name aadhar propertyId status : String) (st : Ledger) : Res :=
  let userKey := makeKey [name, aadhar]
  match PropertyList.getProperty st propertyId with
  | none =>
    Except.error ("Property with propertyId " ++ propertyId ++ " does not exists")
  | some propertyObj =>
    if propertyObj.owner = userKey then
      if status = "registered" ∨ status = "onSale" then
        let propertyObj2 := { propertyObj with status := some status }
        Except.ok (PropertyList.updateProperty st propertyObj2)
      else
        Except.error "The input value of the status should be either registered or onSale"
    else
      Except.error "Only authorized users can update the value of this property"

/-- `UserContract.purchaseProperty` (usercontract.js lines 288-328).  The
source never reads `ctx.clientIdentity` (no MSP/role check).  The three
writes happen in source order: property, then buyer (`user`), then seller
(`oldOwner`); buyer and seller are written to the user namespace under
their own keys, so when the two keys coincide the seller write overwrites
the buyer write.  If the owner record is missing, `oldOwner.upgradCoins`
throws a TypeError before any write. -/
def purchaseProperty (msp name aadhar propertyId : String) (st : Ledger) : Res :=
  let userKey := makeKey [name, aadhar]
  match UserList.getUser st userKey, PropertyList.getProperty st propertyId with
  | some user, some property =>
    if property.status = some "onSale" then
      if jsGe user.upgradCoins property.price then
        match UserList.getUser st property.owner with
        | none => Except.error "TypeError: cannot read upgradCoins of undefined"
        | some oldOwner =>
          let property2 := { property with status := some "registered", owner := userKey }
          let user2 := { user with upgradCoins := jsSub user.upgradCoins property.price }
          let oldOwner2 := { oldOwner with upgradCoins := jsAdd oldOwner.upgradCoins property.price }
          Except.ok
            (UserList.updateUser (UserList.updateUser (PropertyList.updateProperty st property2) user2) oldOwner2)
      else
        Except.error ("There are no sufficient funds for the user with name " ++ name ++ " and aadhar " ++ aadhar ++ " to purchase this property")
    else
      Except.error ("The property with propertyId " ++ propertyId ++ " is not onSale")
  | _, _ =>
    Except.error ("There is no user with name " ++ name ++ " and aadhar " ++ aadhar ++ " exists OR There is no registered property with propertyId " ++ propertyId ++ " exists")

/-! ## RegistrarContract methods (src/unnamed/part_000). -/

/-- `RegistrarContract.approveNewUserRequest` (src/unnamed/part_000 lines
46-78): any existing user record (pending or already approved) is
rewritten with `upgradCoins = 0`; there is no check that the record is
still pending. -/
def approveNewUserRequest (msp name aadhar : String) (st : Ledger) : Res :=
  if msp ≠ "registrarMSP" then
    Except.error "Registrars can only approve new user request"
  else
    let userKey := makeKey [name, aadhar]
    match alGet st.users userKey with
    | none =>
      Except.error ("The new user request for name " ++ name ++ " and aadhar " ++ aadhar ++ " does not exists.")
    | some userRequestObj =>
      let userObj := { userRequestObj with upgradCoins := Coins.num 0 }
      Except.ok (UserList.addUser st userObj)

/-- `RegistrarContract.approvePropertyRegistrationRequest`
(src/unnamed/part_000 lines 118-147). -/
def approvePropertyRegistrationRequest (msp propertyId : String) (st : Ledger) : Res :=
  if msp ≠ "registrarMSP" then
    Except.error "Registrars can only approve property registration request"
  else
    match alGet st.props propertyId with
    | none =>
      Except.error ("Property with propertyId " ++ propertyId ++ " does not exists.")
    | some propertyRequestObj =>
      let property := { propertyRequestObj with status := some "registered" }
      Except.ok (PropertyList.addProperty st property)

/-! ## Concrete sample records used to exercise the operations -/

/-- Sample approved user `alice:1` holding 50 upgradCoins. -/
def aliceRec : UserRec :=
  { name := "alice", email := "al@x", phone := "91", aadhar := "1"
    upgradCoins := Coins.num 50 }

/-- Sample approved user `bob:2` holding 500 upgradCoins. -/
def bobRec : UserRec :=
  { name := "bob", email := "bo@x", phone := "92", aadhar := "2"
    upgradCoins := Coins.num 500 }

/-- Sample pending user `carl:3` (no `upgradCoins` field). -/
def carlRec : UserRec :=
  { name := "carl", email := "ca@x", phone := "93", aadhar := "3"
    upgradCoins := Coins.absent }

/-- Sample property `p1`, owned by `alice:1`, on sale for 100. -/
def p1Rec : PropRec :=
  { propertyId := "p1", owner := "alice:1", price := 100, status := some "onSale" }

/-- Sample ledger holding the three users and the property. -/
def sampleSt : Ledger :=
  { users := [("alice:1", aliceRec), ("bob:2", bobRec), ("carl:3", carlRec)]
    props := [("p1", p1Rec)] }

/-! ## Association-map lemmas -/

theorem alGet_alPut_self {α : Type} (m : List (String × α)) (k : String) (v : α) :
    alGet (alPut m k v) k = some v := by
  induction m with
  | nil => simp [alGet, alPut]
  | cons kv t ih =>
    obtain ⟨k1, w⟩ := kv
    by_cases h : k1 = k <;> simp [alPut, alGet, h, ih]

theorem alGet_alPut_ne {α : Type} (m : List (String × α)) (k q : String) (v : α)
    (h : q ≠ k) : alGet (alPut m k v) q = alGet m q := by
  induction m with
  | nil => simp [alGet, alPut, Ne.symm h]
  | cons kv t ih =>
    obtain ⟨k1, w⟩ := kv
    by_cases h1 : k1 = k
    · subst h1
      simp [alPut, alGet, Ne.symm h]
    · simp [alPut, alGet, h1, ih]

theorem alPut_of_none {α : Type} (m : List (String × α)) (k : String) (v : α)
    (h : alGet m k = none) : alPut m k v = m ++ [(k, v)] := by
  induction m with
  | nil => simp [alPut]
  | cons kv t ih =>
    obtain ⟨k1, w⟩ := kv
    by_cases h1 : k1 = k
    · simp [alGet, h1] at h
    · simp [alGet, h1] at h
      simp [alPut, h1, ih h]

theorem alGet_append_none {α : Type} (m1 m2 : List (String × α)) (k : String)
    (h : alGet m1 k = none) : alGet (m1 ++ m2) k = alGet m2 k := by
  induction m1 with
  | nil => simp
  | cons kv t ih =>
    obtain ⟨k1, w⟩ := kv
    by_cases h1 : k1 = k
    · simp [alGet, h1] at h
    · simp [alGet, h1] at h ⊢
      exact ih h

theorem alGet_eq_none_iff {α : Type} (m : List (String × α)) (k : String) :
    alGet m k = none ↔ k ∉ m.map Prod.fst := by
  induction m with
  | nil => simp [alGet]
  | cons kv t ih =>
    obtain ⟨k1, w⟩ := kv
    by_cases h1 : k1 = k
    · simp [alGet, h1, ih]
    · simp [alGet, h1, ih]
      exact fun _ hh => h1 hh.symm

/-! ## Codec lemmas -/

theorem objAssign_disjoint : ∀ (source base : Jobj),
    (∀ kv ∈ source, alGet base kv.1 = none) → (source.map Prod.fst).Nodup →
    objAssign base source = base ++ source := by
  intro source
  induction source with
  | nil => intro base _ _; simp [objAssign]
  | cons kv t ih =>
    intro base h hd
    obtain ⟨k, v⟩ := kv
    have hb : alGet base k = none := h (k, v) (by simp)
    have hnodup : ((k :: t.map Prod.fst)).Nodup := by simpa using hd
    have hknott : k ∉ t.map Prod.fst := (List.nodup_cons.mp hnodup).1
    have step : objAssign base ((k, v) :: t) = objAssign (base ++ [(k, v)]) t := by
      simp [objAssign, alPut_of_none base k v hb]
    rw [step, ih (base ++ [(k, v)])]
    · simp
    · intro kv2 hkv2
      have h1 : alGet base kv2.1 = none := h kv2 (List.mem_cons_of_mem _ hkv2)
      have h2 : kv2.1 ≠ k := by
        intro hcontra
        exact hknott (hcontra ▸ List.mem_map_of_mem Prod.fst hkv2)
      rw [alGet_append_none _ _ _ h1]
      simp [alGet, Ne.symm h2]
    · exact (List.nodup_cons.mp hnodup).2

theorem objAssign_key_base (d : Jval) (o : Jobj)
    (hk : alGet o "key" = none) (hnd : (o.map Prod.fst).Nodup) :
    objAssign [("key", d)] o = ("key", d) :: o := by
  rw [objAssign_disjoint o [("key", d)] ?_ hnd]
  · simp
  · intro kv hkv
    have h2 : kv.1 ≠ "key" := by
      intro hcontra
      exact ((alGet_eq_none_iff o "key").mp hk) (hcontra ▸ List.mem_map_of_mem Prod.fst hkv)
    simp [alGet, Ne.symm h2]

theorem construct_cons (f : Jobj → String) (o : Jobj)
    (hk : alGet o "key" = none) (hnd : (o.map Prod.fst).Nodup) :
    construct f o = ("key", Jval.str (f o)) :: o := by
  unfold construct
  exact objAssign_key_base _ o hk hnd

theorem construct_construct (f : Jobj → String) (o : Jobj)
    (hk : alGet o "key" = none) (hnd : (o.map Prod.fst).Nodup) :
    construct f (construct f o) = construct f o := by
  rw [construct_cons f o hk hnd]
  unfold construct objAssign
  simp only [List.foldl_cons]
  have hfirst : alPut [("key", Jval.str (f (("key", Jval.str (f o)) :: o)))] "key" (Jval.str (f o))
      = [("key", Jval.str (f o))] := by
    simp [alPut]
  rw [hfirst]
  exact objAssign_key_base (Jval.str (f o)) o hk hnd

/-! ## Behaviour of a successful purchase (shared helper) -/

/-- Runs `purchaseProperty` under its success conditions and gives the
exact resulting ledger: property rewritten first, then the buyer record,
then the old owner record (source write order, lines 316-318). -/
theorem purchase_ok (msp name aadhar propertyId : String) (st : Ledger)
    (user seller : UserRec) (p : PropRec) (b : Int)
    (hu : alGet st.users (makeKey [name, aadhar]) = some user)
    (hb : user.upgradCoins = Coins.num b)
    (hp : alGet st.props propertyId = some p)
    (hseller : alGet st.users p.owner = some seller)
    (hst : p.status = some "onSale")
    (hge : b ≥ p.price) :
    purchaseProperty msp name aadhar propertyId st = Except.ok
      { props := alPut st.props p.propertyId
          { p with owner := makeKey [name, aadhar], status := some "registered" }
        users := alPut
          (alPut st.users (UserRec.getKey user)
            { user with upgradCoins := Coins.num (b - p.price) })
          (UserRec.getKey seller)
          { seller with upgradCoins := jsAdd seller.upgradCoins p.price } } := by
  simp [purchaseProperty, UserList.getUser, PropertyList.getProperty,
    UserList.updateUser, PropertyList.updateProperty, UserRec.getKey, PropRec.getKey,
    hu, hp, hst, hseller, hb, jsGe, hge, jsSub]

/-! ## Claim theorems -/

/-- Claim C4, counterexample: decoding an absent buffer and decoding
present-but-corrupt bytes produce the very same result (`undefined`,
modelled `none`), for User and Property alike — the two outcomes are not
distinguishable, contrary to the claim. -/
theorem C4_counterexample :
    User.fromBuffer RawBuf.absent = User.fromBuffer RawBuf.corrupt ∧
    Property.fromBuffer RawBuf.absent = Property.fromBuffer RawBuf.corrupt ∧
    User.fromBuffer RawBuf.absent = none ∧
    Property.fromBuffer RawBuf.absent = none :=
  ⟨rfl, rfl, rfl, rfl⟩

/-- Claim C4 as amended: the round-trip half holds — for every validly
constructed entity buffer (the serialization of `createInstance o`, where
the plain object `o` has pairwise-distinct field names and no `key`
field), re-encoding the decoded entity reproduces the buffer, for both
User and Property; but decoding an absent buffer yields the same result
as decoding corrupt bytes (see the counterexample), not a distinguishable
one. -/
theorem C4_roundtrip (o : Jobj) (hk : alGet o "key" = none)
    (hnd : (o.map Prod.fst).Nodup) :
    (User.fromBuffer (User.toBuffer (User.createInstance o))).map User.toBuffer
      = some (User.toBuffer (User.createInstance o)) ∧
    (Property.fromBuffer (Property.toBuffer (Property.createInstance o))).map Property.toBuffer
      = some (Property.toBuffer (Property.createInstance o)) := by
  constructor
  · simp [User.fromBuffer, User.toBuffer, User.createInstance,
      construct_construct User.keyOf o hk hnd]
  · simp [Property.fromBuffer, Property.toBuffer, Property.createInstance,
      construct_construct Property.keyOf o hk hnd]

/-- Witness for C4_roundtrip at a concrete four-field user object. -/
theorem C4_roundtrip_witness :
    alGet [("name", Jval.str "alice"), ("email", Jval.str "al@x"),
           ("phone", Jval.str "91"), ("aadhar", Jval.str "1")] "key" = none ∧
    ((List.map Prod.fst [("name", Jval.str "alice"), ("email", Jval.str "al@x"),
           ("phone", Jval.str "91"), ("aadhar", Jval.str "1")]).Nodup) ∧
    (User.fromBuffer (User.toBuffer (User.createInstance
        [("name", Jval.str "alice"), ("email", Jval.str "al@x"),
         ("phone", Jval.str "91"), ("aadhar", Jval.str "1")]))).map User.toBuffer
      = some (User.toBuffer (User.createInstance
        [("name", Jval.str "alice"), ("email", Jval.str "al@x"),
         ("phone", Jval.str "91"), ("aadhar", Jval.str "1")])) :=
  ⟨by decide, by decide,
    (C4_roundtrip _ (by decide) (by decide)).1⟩

/-- Claim C9: `approveNewUserRequest` does not check that the stored user
record is still pending — for any existing record, pending or approved, a
registrar-MSP call succeeds and rewrites the record with `upgradCoins = 0`,
discarding any previously accumulated balance. -/
theorem C9_approve_overwrites (msp name aadhar : String) (st : Ledger) (u : UserRec)
    (hmsp : msp = "registrarMSP")
    (hu : alGet st.users (makeKey [name, aadhar]) = some u)
    (hkey : UserRec.getKey u = makeKey [name, aadhar]) :
    ∃ st2, approveNewUserRequest msp name aadhar st = Except.ok st2 ∧
      alGet st2.users (makeKey [name, aadhar]) = some { u with upgradCoins := Coins.num 0 } := by
  subst hmsp
  have hkey2 : UserRec.getKey { u with upgradCoins := Coins.num 0 } = makeKey [name, aadhar] := hkey
  refine ⟨UserList.addUser st { u with upgradCoins := Coins.num 0 }, ?_, ?_⟩
  · simp [approveNewUserRequest, hu]
  · simp [UserList.addUser, hkey2, alGet_alPut_self]

/-- Witness for C9 at the approved user `bob:2` with balance 500: the
approval succeeds again and resets the stored balance to 0. -/
theorem C9_approve_overwrites_witness :
    ("registrarMSP" : String) = "registrarMSP" ∧
    alGet sampleSt.users (makeKey ["bob", "2"]) = some bobRec ∧
    UserRec.getKey bobRec = makeKey ["bob", "2"] ∧
    (∃ st2, approveNewUserRequest "registrarMSP" "bob" "2" sampleSt = Except.ok st2 ∧
      alGet st2.users (makeKey ["bob", "2"]) = some { bobRec with upgradCoins := Coins.num 0 }) :=
  ⟨rfl, by decide, by decide,
    C9_approve_overwrites "registrarMSP" "bob" "2" sampleSt bobRec rfl (by decide) (by decide)⟩

/-- Claim C7, counterexample: `toString` is outside the static table,
yet `VALID_TRANSACTIONS["toString"]` finds the truthy
`Object.prototype.toString` member, so `rechargeAccount` does not fail:
it succeeds and overwrites the approved user's numeric balance with the
string produced by `500 += <function>`, so the stored balance changes. -/
theorem C7_counterexample :
    VALID_TRANSACTIONS "toString" = some TxVal.member ∧
    rechargeAccount "usersMSP" "bob" "2" "toString" sampleSt
      = Except.ok
      { users := [("alice:1", aliceRec), ("bob:2", { bobRec with upgradCoins := Coins.str }), ("carl:3", carlRec)]
        props := [("p1", p1Rec)] } ∧
    Coins.str ≠ bobRec.upgradCoins :=
  ⟨rfl, rfl, by decide⟩

/-- Claim C7 as amended: for an approved user, `rechargeAccount` with a
transaction id the static table maps to `amt` increases the stored
balance by exactly `amt`, and a transaction id that is neither a table
entry nor a name inherited from `Object.prototype` makes the call fail
before the user is even read, with no balance change; but for the
inherited names (`toString`, `valueOf`, `hasOwnProperty`, ...) the
truthiness guard passes, the call succeeds, and the stored balance
becomes a non-numeric string. -/
theorem C7_recharge (msp name aadhar transactionID : String) (st : Ledger)
    (hmsp : msp = "usersMSP") :
    (∀ (user : UserRec) (b amt : Int),
      VALID_TRANSACTIONS transactionID = some (TxVal.num amt) →
      alGet st.users (makeKey [name, aadhar]) = some user →
      user.upgradCoins = Coins.num b →
      UserRec.getKey user = makeKey [name, aadhar] →
      ∃ st2, rechargeAccount msp name aadhar transactionID st = Except.ok st2 ∧
        alGet st2.users (makeKey [name, aadhar])
          = some { user with upgradCoins := Coins.num (b + amt) }) ∧
    (VALID_TRANSACTIONS transactionID = none →
      rechargeAccount msp name aadhar transactionID st =
        Except.error "Invalid Bank Transaction ID") ∧
    (∀ user : UserRec,
      VALID_TRANSACTIONS transactionID = some TxVal.member →
      alGet st.users (makeKey [name, aadhar]) = some user →
      UserRec.getKey user = makeKey [name, aadhar] →
      ∃ st2, rechargeAccount msp name aadhar transactionID st = Except.ok st2 ∧
        alGet st2.users (makeKey [name, aadhar])
          = some { user with upgradCoins := Coins.str }) := by
  subst hmsp
  refine ⟨?_, ?_, ?_⟩
  · intro user b amt htx hu hb hkey
    have hkey2 : UserRec.getKey { user with upgradCoins := Coins.num (b + amt) } = makeKey [name, aadhar] := hkey
    refine ⟨UserList.updateUser st { user with upgradCoins := Coins.num (b + amt) }, ?_, ?_⟩
    · simp [rechargeAccount, UserList.getUser, htx, hu, hb, jsAddV, jsAdd]
    · simp [UserList.updateUser, hkey2, alGet_alPut_self]
  · intro htx
    simp [rechargeAccount, htx]
  · intro user htx hu hkey
    have hkey2 : UserRec.getKey { user with upgradCoins := Coins.str } = makeKey [name, aadhar] := hkey
    refine ⟨UserList.updateUser st { user with upgradCoins := Coins.str }, ?_, ?_⟩
    · simp [rechargeAccount, UserList.getUser, htx, hu, jsAddV]
    · simp [UserList.updateUser, hkey2, alGet_alPut_self]

/-- Witness for C7: recharging `bob:2` with `upg500` yields balance 1000;
`upg999` is rejected; `valueOf` slips past the guard and stores a string
balance. -/
theorem C7_recharge_witness :
    ("usersMSP" : String) = "usersMSP" ∧
    VALID_TRANSACTIONS "upg500" = some (TxVal.num 500) ∧
    alGet sampleSt.users (makeKey ["bob", "2"]) = some bobRec ∧
    bobRec.upgradCoins = Coins.num 500 ∧
    UserRec.getKey bobRec = makeKey ["bob", "2"] ∧
    (∃ st2, rechargeAccount "usersMSP" "bob" "2" "upg500" sampleSt = Except.ok st2 ∧
      alGet st2.users (makeKey ["bob", "2"])
        = some { bobRec with upgradCoins := Coins.num (500 + 500) }) ∧
    VALID_TRANSACTIONS "upg999" = none ∧
    rechargeAccount "usersMSP" "bob" "2" "upg999" sampleSt =
      Except.error "Invalid Bank Transaction ID" ∧
    VALID_TRANSACTIONS "valueOf" = some TxVal.member ∧
    (∃ st2, rechargeAccount "usersMSP" "bob" "2" "valueOf" sampleSt = Except.ok st2 ∧
      alGet st2.users (makeKey ["bob", "2"])
        = some { bobRec with upgradCoins := Coins.str }) :=
  ⟨rfl, by decide, by decide, by decide, by decide,
    (C7_recharge "usersMSP" "bob" "2" "upg500" sampleSt rfl).1 bobRec 500 500
      (by decide) (by decide) (by decide) (by decide),
    by decide,
    (C7_recharge "usersMSP" "bob" "2" "upg999" sampleSt rfl).2.1 (by decide),
    by decide,
    (C7_recharge "usersMSP" "bob" "2" "valueOf" sampleSt rfl).2.2 bobRec
      (by decide) (by decide) (by decide)⟩

/-- Claim C10: `rechargeAccount` never checks that the stored user is
approved — called with a valid transaction id on a pending record (no
`upgradCoins` field) it succeeds, writing back `undefined + amt = NaN`, a
non-numeric balance. -/
theorem C10_recharge_pending (msp name aadhar transactionID : String) (st : Ledger)
    (user : UserRec) (amt : Int)
    (hmsp : msp = "usersMSP")
    (htx : VALID_TRANSACTIONS transactionID = some (TxVal.num amt))
    (hu : alGet st.users (makeKey [name, aadhar]) = some user)
    (hpend : user.upgradCoins = Coins.absent)
    (hkey : UserRec.getKey user = makeKey [name, aadhar]) :
    ∃ st2, rechargeAccount msp name aadhar transactionID st = Except.ok st2 ∧
      alGet st2.users (makeKey [name, aadhar])
        = some { user with upgradCoins := Coins.nan } := by
  subst hmsp
  have hkey2 : UserRec.getKey { user with upgradCoins := Coins.nan } = makeKey [name, aadhar] := hkey
  refine ⟨UserList.updateUser st { user with upgradCoins := Coins.nan }, ?_, ?_⟩
  · simp [rechargeAccount, UserList.getUser, htx, hu, hpend, jsAddV, jsAdd]
  · simp [UserList.updateUser, hkey2, alGet_alPut_self]

/-- Witness for C10 at the pending user `carl:3`: recharging with
`upg100` succeeds and stores the non-numeric `NaN` balance. -/
theorem C10_recharge_pending_witness :
    ("usersMSP" : String) = "usersMSP" ∧
    VALID_TRANSACTIONS "upg100" = some (TxVal.num 100) ∧
    alGet sampleSt.users (makeKey ["carl", "3"]) = some carlRec ∧
    carlRec.upgradCoins = Coins.absent ∧
    UserRec.getKey carlRec = makeKey ["carl", "3"] ∧
    (∃ st2, rechargeAccount "usersMSP" "carl" "3" "upg100" sampleSt = Except.ok st2 ∧
      alGet st2.users (makeKey ["carl", "3"])
        = some { carlRec with upgradCoins := Coins.nan }) :=
  ⟨rfl, by decide, by decide, by decide, by decide,
    C10_recharge_pending "usersMSP" "carl" "3" "upg100" sampleSt carlRec 100
      rfl (by decide) (by decide) (by decide) (by decide)⟩

/-- Claim C2, counterexample: `purchaseProperty` performs no role check
at all — invoked under the registrar MSP (not the user role the spec
requires for purchases) it does not fail with an authorization error but
completes the purchase and mutates the ledger. -/
theorem C2_counterexample :
    purchaseProperty "registrarMSP" "bob" "2" "p1"
      { users := [("alice:1", { name := "alice", email := "al@x", phone := "91", aadhar := "1", upgradCoins := Coins.num 50 }),
                  ("bob:2", { name := "bob", email := "bo@x", phone := "92", aadhar := "2", upgradCoins := Coins.num 500 })]
        props := [("p1", { propertyId := "p1", owner := "alice:1", price := 100, status := some "onSale" })] }
      = Except.ok
      { users := [("alice:1", { name := "alice", email := "al@x", phone := "91", aadhar := "1", upgradCoins := Coins.num 150 }),
                  ("bob:2", { name := "bob", email := "bo@x", phone := "92", aadhar := "2", upgradCoins := Coins.num 400 })]
        props := [("p1", { propertyId := "p1", owner := "bob:2", price := 100, status := some "registered" })] } := by
  rfl

/-- Claim C2 as amended: five of the seven mutating operations
(`requestNewUser`, `rechargeAccount`, `propertyRegistrationRequest` gated
on `usersMSP`; `approveNewUserRequest`,
`approvePropertyRegistrationRequest` gated on `registrarMSP`) check the
caller's MSP as their first step and fail with the authorization error and
no state change for any other principal; `updateProperty` and
`purchaseProperty`, however, never read the client identity: their result
is entirely independent of the calling MSP. -/
theorem C2_role_gates (msp msp2 name email phone aadhar transactionID propertyId status : String)
    (price : Int) (st : Ledger) :
    (msp ≠ "usersMSP" → requestNewUser msp name email phone aadhar st =
      Except.error "Only users should be allowed to raise a new user request") ∧
    (msp ≠ "usersMSP" → rechargeAccount msp name aadhar transactionID st =
      Except.error "Only users should be allowed to recharge accounts") ∧
    (msp ≠ "usersMSP" → propertyRegistrationRequest msp name aadhar propertyId price st =
      Except.error "Only users should be used to raise property registration request") ∧
    (msp ≠ "registrarMSP" → approveNewUserRequest msp name aadhar st =
      Except.error "Registrars can only approve new user request") ∧
    (msp ≠ "registrarMSP" → approvePropertyRegistrationRequest msp propertyId st =
      Except.error "Registrars can only approve property registration request") ∧
    updateProperty msp name aadhar propertyId status st
      = updateProperty msp2 name aadhar propertyId status st ∧
    purchaseProperty msp name aadhar propertyId st
      = purchaseProperty msp2 name aadhar propertyId st := by
  refine ⟨?_, ?_, ?_, ?_, ?_, rfl, rfl⟩ <;> intro h
  · simp [requestNewUser, h]
  · simp [rechargeAccount, h]
  · simp [propertyRegistrationRequest, h]
  · simp [approveNewUserRequest, h]
  · simp [approvePropertyRegistrationRequest, h]

/-- Witness for C2_role_gates with a registrar principal calling the
user-gated operations and a user principal calling the registrar-gated
ones. -/
theorem C2_role_gates_witness :
    (("registrarMSP" : String) ≠ "usersMSP") ∧
    requestNewUser "registrarMSP" "dave" "d@x" "94" "4" sampleSt =
      Except.error "Only users should be allowed to raise a new user request" ∧
    rechargeAccount "registrarMSP" "bob" "2" "upg100" sampleSt =
      Except.error "Only users should be allowed to recharge accounts" ∧
    (("usersMSP" : String) ≠ "registrarMSP") ∧
    approveNewUserRequest "usersMSP" "carl" "3" sampleSt =
      Except.error "Registrars can only approve new user request" ∧
    updateProperty "registrarMSP" "alice" "1" "p1" "registered" sampleSt
      = updateProperty "usersMSP" "alice" "1" "p1" "registered" sampleSt :=
  ⟨by decide,
    (C2_role_gates "registrarMSP" "usersMSP" "dave" "d@x" "94" "4" "tx" "p1" "s" 0 sampleSt).1 (by decide),
    (C2_role_gates "registrarMSP" "usersMSP" "bob" "e" "92" "2" "upg100" "p1" "s" 0 sampleSt).2.1 (by decide),
    by decide,
    (C2_role_gates "usersMSP" "usersMSP" "carl" "e" "93" "3" "tx" "p1" "s" 0 sampleSt).2.2.2.1 (by decide),
    (C2_role_gates "registrarMSP" "usersMSP" "alice" "e" "91" "1" "tx" "p1" "registered" 0 sampleSt).2.2.2.2.2.1⟩

/-- Claim C1, counterexample: when the buyer key equals the seller key
(the owner buys their own on-sale property), the invocation succeeds but
the total balance is NOT conserved: the single record goes from 200 to
300 upgradCoins (the buyer-debited write is overwritten by the
seller-credited write to the same key), so the buyer+seller sum changes
whether the shared record is counted once (200 to 300) or twice (400 to
600). -/
theorem C1_counterexample :
    (purchaseProperty "usersMSP" "alice" "1" "p1"
      { users := [("alice:1", { name := "alice", email := "al@x", phone := "91", aadhar := "1", upgradCoins := Coins.num 200 })]
        props := [("p1", { propertyId := "p1", owner := "alice:1", price := 100, status := some "onSale" })] }
      = Except.ok
      { users := [("alice:1", { name := "alice", email := "al@x", phone := "91", aadhar := "1", upgradCoins := Coins.num 300 })]
        props := [("p1", { propertyId := "p1", owner := "alice:1", price := 100, status := some "registered" })] })
    ∧ (300 : Int) ≠ 200 ∧ (300 : Int) + 300 ≠ 200 + 200 :=
  ⟨rfl, by decide, by decide⟩

/-- Claim C1 as amended: for every successful purchase whose buyer key
differs from the seller key (`property.owner`), with both records
approved users, the sum of the two stored balances is conserved.  (When
the two keys coincide the claim fails: see the counterexample — the
stored balance increases by the price.) -/
theorem C1_conservation (msp name aadhar propertyId : String) (st : Ledger)
    (buyer seller : UserRec) (p : PropRec) (b s : Int)
    (hbuyer : alGet st.users (makeKey [name, aadhar]) = some buyer)
    (hb : buyer.upgradCoins = Coins.num b)
    (hp : alGet st.props propertyId = some p)
    (hseller : alGet st.users p.owner = some seller)
    (hs : seller.upgradCoins = Coins.num s)
    (hne : p.owner ≠ makeKey [name, aadhar])
    (hst : p.status = some "onSale")
    (hge : b ≥ p.price)
    (hbk : UserRec.getKey buyer = makeKey [name, aadhar])
    (hsk : UserRec.getKey seller = p.owner) :
    ∃ st2, purchaseProperty msp name aadhar propertyId st = Except.ok st2 ∧
      ∃ b2 s2 : Int,
        (alGet st2.users (makeKey [name, aadhar])).map UserRec.upgradCoins = some (Coins.num b2) ∧
        (alGet st2.users p.owner).map UserRec.upgradCoins = some (Coins.num s2) ∧
        b2 + s2 = b + s := by
  refine ⟨_, purchase_ok msp name aadhar propertyId st buyer seller p b hbuyer hb hp hseller hst hge,
    b - p.price, s + p.price, ?_, ?_, by ring⟩
  · rw [hsk, hbk, alGet_alPut_ne _ _ _ _ (Ne.symm hne), alGet_alPut_self]
    rfl
  · rw [hsk, alGet_alPut_self]
    simp [hs, jsAdd]

/-- Witness for C1_conservation: `bob:2` (500 coins) buys `p1` (price
100) from `alice:1` (50 coins); afterwards the stored balances are 400
and 150, summing to the original 550. -/
theorem C1_conservation_witness :
    alGet sampleSt.users (makeKey ["bob", "2"]) = some bobRec ∧
    bobRec.upgradCoins = Coins.num 500 ∧
    alGet sampleSt.props "p1" = some p1Rec ∧
    alGet sampleSt.users p1Rec.owner = some aliceRec ∧
    aliceRec.upgradCoins = Coins.num 50 ∧
    p1Rec.owner ≠ makeKey ["bob", "2"] ∧
    p1Rec.status = some "onSale" ∧
    (500 : Int) ≥ p1Rec.price ∧
    UserRec.getKey bobRec = makeKey ["bob", "2"] ∧
    UserRec.getKey aliceRec = p1Rec.owner ∧
    (∃ st2, purchaseProperty "usersMSP" "bob" "2" "p1" sampleSt = Except.ok st2 ∧
      ∃ b2 s2 : Int,
        (alGet st2.users (makeKey ["bob", "2"])).map UserRec.upgradCoins = some (Coins.num b2) ∧
        (alGet st2.users p1Rec.owner).map UserRec.upgradCoins = some (Coins.num s2) ∧
        b2 + s2 = 500 + 50) :=
  ⟨by decide, by decide, by decide, by decide, by decide, by decide, by decide, by decide,
    by decide, by decide,
    C1_conservation "usersMSP" "bob" "2" "p1" sampleSt bobRec aliceRec p1Rec 500 50
      (by decide) (by decide) (by decide) (by decide) (by decide) (by decide) (by decide)
      (by decide) (by decide) (by decide)⟩

/-- Claim C3 (code bug): with a pending, unapproved user record at
`alice:1` (no `upgradCoins` field) and no property at `p1`, the claim
(and the spec, and the error message of the code's own missing-user
branch) require `propertyRegistrationRequest` to fail and write nothing;
the code instead succeeds and writes the pending property referencing the
unapproved owner, because it only checks that some user record exists. -/
theorem C3_code_divergence :
    propertyRegistrationRequest "usersMSP" "alice" "1" "p1" 500
      { users := [("alice:1", { name := "alice", email := "al@x", phone := "91", aadhar := "1", upgradCoins := Coins.absent })]
        props := [] }
      = Except.ok
      { users := [("alice:1", { name := "alice", email := "al@x", phone := "91", aadhar := "1", upgradCoins := Coins.absent })]
        props := [("p1", { propertyId := "p1", owner := "alice:1", price := 500, status := none })] } := by
  rfl

/-- Claim C5: `purchaseProperty` fails with the not-onSale error whenever
the property's status is not `onSale`, and with the insufficient-funds
error whenever the buyer's stored balance is below the price; in both
cases the invocation returns an error and therefore performs none of its
ledger writes (in this embedding a completed invocation returns the
ledger holding all of its writes, an error invocation returns no ledger
at all, so every operation either completes its full effect or has no
effect). -/
theorem C5_purchase_guards (msp name aadhar propertyId : String) (st : Ledger)
    (user : UserRec) (p : PropRec)
    (hu : alGet st.users (makeKey [name, aadhar]) = some user)
    (hp : alGet st.props propertyId = some p) :
    (p.status ≠ some "onSale" →
      purchaseProperty msp name aadhar propertyId st =
        Except.error ("The property with propertyId " ++ propertyId ++ " is not onSale")) ∧
    (∀ b : Int, p.status = some "onSale" → user.upgradCoins = Coins.num b → b < p.price →
      purchaseProperty msp name aadhar propertyId st =
        Except.error ("There are no sufficient funds for the user with name " ++ name ++ " and aadhar " ++ aadhar ++ " to purchase this property")) := by
  constructor
  · intro hst
    simp [purchaseProperty, UserList.getUser, PropertyList.getProperty, hu, hp, hst]
  · intro b hst hb hlt
    simp [purchaseProperty, UserList.getUser, PropertyList.getProperty, hu, hp, hst, hb,
      jsGe, not_le.mpr hlt]

/-- Witness for C5: `alice:1` (50 coins) cannot afford `p1` (price 100),
and once `p1` is not on sale the purchase fails with the not-onSale
error. -/
theorem C5_purchase_guards_witness :
    alGet sampleSt.users (makeKey ["alice", "1"]) = some aliceRec ∧
    alGet sampleSt.props "p1" = some p1Rec ∧
    (p1Rec.status = some "onSale" ∧ aliceRec.upgradCoins = Coins.num 50 ∧ (50 : Int) < p1Rec.price ∧
      purchaseProperty "usersMSP" "alice" "1" "p1" sampleSt =
        Except.error ("There are no sufficient funds for the user with name " ++ "alice" ++ " and aadhar " ++ "1" ++ " to purchase this property")) ∧
    (alGet ({ sampleSt with props := [("p1", { p1Rec with status := some "registered" })] } : Ledger).props "p1"
        = some { p1Rec with status := some "registered" } ∧
      purchaseProperty "usersMSP" "alice" "1" "p1"
          { sampleSt with props := [("p1", { p1Rec with status := some "registered" })] } =
        Except.error ("The property with propertyId " ++ "p1" ++ " is not onSale")) :=
  ⟨by decide, by decide,
    ⟨by decide, by decide, by decide,
      (C5_purchase_guards "usersMSP" "alice" "1" "p1" sampleSt aliceRec p1Rec
        (by decide) (by decide)).2 50 (by decide) (by decide) (by decide)⟩,
    ⟨by decide,
      (C5_purchase_guards "usersMSP" "alice" "1" "p1"
        { sampleSt with props := [("p1", { p1Rec with status := some "registered" })] }
        aliceRec { p1Rec with status := some "registered" }
        (by decide) (by decide)).1 (by decide)⟩⟩

/-- Claim C6: after every successful purchase the stored property has
`owner = buyerKey` and `status = registered`, and an immediate second
purchase of the same property (here: by the buyer again, whose record
still exists), with no intervening `updateProperty` back to `onSale`,
fails with the not-onSale error. -/
theorem C6_post_purchase (msp msp2 name aadhar propertyId : String) (st : Ledger)
    (buyer seller : UserRec) (p : PropRec) (b : Int)
    (hu : alGet st.users (makeKey [name, aadhar]) = some buyer)
    (hb : buyer.upgradCoins = Coins.num b)
    (hp : alGet st.props propertyId = some p)
    (hseller : alGet st.users p.owner = some seller)
    (hst : p.status = some "onSale")
    (hge : b ≥ p.price)
    (hbk : UserRec.getKey buyer = makeKey [name, aadhar])
    (hpid : p.propertyId = propertyId) :
    ∃ st2, purchaseProperty msp name aadhar propertyId st = Except.ok st2 ∧
      alGet st2.props propertyId
        = some { p with owner := makeKey [name, aadhar], status := some "registered" } ∧
      purchaseProperty msp2 name aadhar propertyId st2 =
        Except.error ("The property with propertyId " ++ propertyId ++ " is not onSale") := by
  have hprops2 : alGet (alPut st.props p.propertyId { p with owner := makeKey [name, aadhar], status := some "registered" }) propertyId
      = some { p with owner := makeKey [name, aadhar], status := some "registered" } := by
    rw [hpid]
    exact alGet_alPut_self ..
  refine ⟨_, purchase_ok msp name aadhar propertyId st buyer seller p b hu hb hp hseller hst hge,
    hprops2, ?_⟩
  by_cases hcase : UserRec.getKey seller = makeKey [name, aadhar]
  · have hu2 : alGet (alPut (alPut st.users (UserRec.getKey buyer) { buyer with upgradCoins := Coins.num (b - p.price) }) (UserRec.getKey seller) { seller with upgradCoins := jsAdd seller.upgradCoins p.price }) (makeKey [name, aadhar])
        = some { seller with upgradCoins := jsAdd seller.upgradCoins p.price } := by
      rw [hcase]
      exact alGet_alPut_self ..
    simp [purchaseProperty, UserList.getUser, PropertyList.getProperty, hu2, hprops2]
  · have hu2 : alGet (alPut (alPut st.users (UserRec.getKey buyer) { buyer with upgradCoins := Coins.num (b - p.price) }) (UserRec.getKey seller) { seller with upgradCoins := jsAdd seller.upgradCoins p.price }) (makeKey [name, aadhar])
        = some { buyer with upgradCoins := Coins.num (b - p.price) } := by
      rw [alGet_alPut_ne _ _ _ _ (fun hh => hcase hh.symm), hbk]
      exact alGet_alPut_self ..
    simp [purchaseProperty, UserList.getUser, PropertyList.getProperty, hu2, hprops2]

/-- Witness for C6: after `bob:2` buys `p1` from `alice:1`, the stored
property is owned by `bob:2` with status `registered`, and a second
attempt by `bob:2` fails with the not-onSale error. -/
theorem C6_post_purchase_witness :
    alGet sampleSt.users (makeKey ["bob", "2"]) = some bobRec ∧
    bobRec.upgradCoins = Coins.num 500 ∧
    alGet sampleSt.props "p1" = some p1Rec ∧
    alGet sampleSt.users p1Rec.owner = some aliceRec ∧
    p1Rec.status = some "onSale" ∧
    (500 : Int) ≥ p1Rec.price ∧
    UserRec.getKey bobRec = makeKey ["bob", "2"] ∧
    p1Rec.propertyId = "p1" ∧
    (∃ st2, purchaseProperty "usersMSP" "bob" "2" "p1" sampleSt = Except.ok st2 ∧
      alGet st2.props "p1"
        = some { p1Rec with owner := makeKey ["bob", "2"], status := some "registered" } ∧
      purchaseProperty "usersMSP" "bob" "2" "p1" st2 =
        Except.error ("The property with propertyId " ++ "p1" ++ " is not onSale")) :=
  ⟨by decide, by decide, by decide, by decide, by decide, by decide, by decide, by decide,
    C6_post_purchase "usersMSP" "usersMSP" "bob" "2" "p1" sampleSt bobRec aliceRec p1Rec 500
      (by decide) (by decide) (by decide) (by decide) (by decide) (by decide) (by decide) (by decide)⟩

/-- Claim C8: `purchaseProperty` never requires the buyer to differ from
the current owner — when the caller's key equals `property.owner`, the
property is on sale and the balance covers the price, the call succeeds,
and because the debited buyer record and then the credited seller record
are written to the same user key in that order, the caller's stored
balance afterwards is its old balance plus the price. -/
theorem C8_self_purchase (msp name aadhar propertyId : String) (st : Ledger)
    (user : UserRec) (p : PropRec) (b : Int)
    (hu : alGet st.users (makeKey [name, aadhar]) = some user)
    (hb : user.upgradCoins = Coins.num b)
    (hp : alGet st.props propertyId = some p)
    (howner : p.owner = makeKey [name, aadhar])
    (hst : p.status = some "onSale")
    (hge : b ≥ p.price)
    (hbk : UserRec.getKey user = makeKey [name, aadhar]) :
    ∃ st2, purchaseProperty msp name aadhar propertyId st = Except.ok st2 ∧
      (alGet st2.users (makeKey [name, aadhar])).map UserRec.upgradCoins
        = some (Coins.num (b + p.price)) := by
  have hseller : alGet st.users p.owner = some user := by rw [howner]; exact hu
  refine ⟨_, purchase_ok msp name aadhar propertyId st user user p b hu hb hp hseller hst hge, ?_⟩
  rw [← hbk, alGet_alPut_self]
  simp [hb, jsAdd]

/-- Witness for C8: `alice:1` (200 coins) buys her own property `p2`
(price 100, on sale); the call succeeds and her stored balance becomes
300. -/
theorem C8_self_purchase_witness :
    alGet ({ users := [("alice:1", { aliceRec with upgradCoins := Coins.num 200 })], props := [("p2", { propertyId := "p2", owner := "alice:1", price := 100, status := some "onSale" })] } : Ledger).users (makeKey ["alice", "1"])
      = some { aliceRec with upgradCoins := Coins.num 200 } ∧
    ({ aliceRec with upgradCoins := Coins.num 200 } : UserRec).upgradCoins = Coins.num 200 ∧
    alGet ({ users := [("alice:1", { aliceRec with upgradCoins := Coins.num 200 })], props := [("p2", { propertyId := "p2", owner := "alice:1", price := 100, status := some "onSale" })] } : Ledger).props "p2"
      = some { propertyId := "p2", owner := "alice:1", price := 100, status := some "onSale" } ∧
    ({ propertyId := "p2", owner := "alice:1", price := 100, status := some "onSale" } : PropRec).owner = makeKey ["alice", "1"] ∧
    ({ propertyId := "p2", owner := "alice:1", price := 100, status := some "onSale" } : PropRec).status = some "onSale" ∧
    (200 : Int) ≥ ({ propertyId := "p2", owner := "alice:1", price := 100, status := some "onSale" } : PropRec).price ∧
    UserRec.getKey { aliceRec with upgradCoins := Coins.num 200 } = makeKey ["alice", "1"] ∧
    (∃ st2, purchaseProperty "usersMSP" "alice" "1" "p2"
        { users := [("alice:1", { aliceRec with upgradCoins := Coins.num 200 })], props := [("p2", { propertyId := "p2", owner := "alice:1", price := 100, status := some "onSale" })] }
        = Except.ok st2 ∧
      (alGet st2.users (makeKey ["alice", "1"])).map UserRec.upgradCoins
        = some (Coins.num (200 + ({ propertyId := "p2", owner := "alice:1", price := 100, status := some "onSale" } : PropRec).price))) :=
  ⟨by decide, by decide, by decide, by decide, by decide, by decide, by decide,
    C8_self_purchase "usersMSP" "alice" "1" "p2"
      { users := [("alice:1", { aliceRec with upgradCoins := Coins.num 200 })], props := [("p2", { propertyId := "p2", owner := "alice:1", price := 100, status := some "onSale" })] }
      { aliceRec with upgradCoins := Coins.num 200 }
      { propertyId := "p2", owner := "alice:1", price := 100, status := some "onSale" } 200
      (by decide) (by decide) (by decide) (by decide) (by decide) (by decide) (by decide)⟩

end PropReg
